import Mathlib

/-!
Verification of the ProdVent Express/MongoDB backend (index.js and the
earlier variant in unnamed/part_000) against its natural-language
specification.  The handlers are shallowly embedded: the MongoDB
collections become Lean lists, `findOne` becomes `List.find?` (first
match), `updateOne` updates the first matching document, `$addToSet`
appends when absent, `$pull` removes every occurrence, `$inc` adds to the
counter.  Each HTTP handler becomes a pure function from a request and
store to an updated store and an outcome.
-/

namespace ProdVent

/-- A document of the `products` collection, with the fields written by
POST /add-product (index.js lines 309-323).  `pid` models Mongo's `_id`;
`timestamp` models the `Date` as a number. -/
structure Product where
  pid : Nat
  name : String
  image : String
  description : String
  tags : List String
  externalLink : String
  vote : Int
  likedUsers : List String
  addedBy : String
  timestamp : Nat
  report : Int
  reportedBy : List String
  status : String
  type : String
deriving Repr, DecidableEq

/-- A document of the `users` collection (POST /user stores the request
body as-is; the fields here are the ones the routes touch). -/
structure UserRec where
  email : String
  name : String
  role : String
  status : String
deriving Repr, DecidableEq

/-- A document of the `reviews` collection, as built by
POST /product/:id/reviews (index.js lines 222-229). -/
structure ReviewRec where
  email : String
  name : String
  photo : String
  rating : Int
  review : String
  productId : Nat
deriving Repr, DecidableEq

/-- The database state: the three collections the verified routes use. -/
structure Store where
  products : List Product
  users : List UserRec
  reviews : List ReviewRec
deriving Repr, DecidableEq

/-- Mongo `findOne {_id: id}` on the products collection: first match wins. -/
def findProduct (st : Store) (id : Nat) : Option Product :=
  st.products.find? (fun p => p.pid == id)

/-- Mongo `updateOne {_id: id}` applies `f` to the first matching document
only, leaving the rest of the collection untouched. -/
def updateFirst (ps : List Product) (id : Nat) (f : Product → Product) :
    List Product :=
  match ps with
  | [] => []
  | p :: rest =>
      if p.pid == id then f p :: rest else p :: updateFirst rest id f

/-- Outcome of a route: a successful JSON body or an HTTP error status
with its message. -/
inductive Outcome (α : Type) where
  | ok (value : α)
  | error (status : Nat) (message : String)
deriving Repr, DecidableEq

/-- Mongo `$pull {likedUsers: email}` removes every occurrence;
`$addToSet {likedUsers: email}` appends only when absent.  The branch is
chosen by `product.likedUsers.includes(email)` (index.js line 143). -/
def toggleLike (email : String) (p : Product) : Product :=
  if p.likedUsers.contains email then
    { p with vote := p.vote - 1,
             likedUsers := p.likedUsers.filter (fun e => e ≠ email) }
  else
    { p with vote := p.vote + 1,
             likedUsers := p.likedUsers ++ [email] }

/-- Same toggle on the report fields (index.js lines 182-192). -/
def toggleReport (email : String) (p : Product) : Product :=
  if p.reportedBy.contains email then
    { p with report := p.report - 1,
             reportedBy := p.reportedBy.filter (fun e => e ≠ email) }
  else
    { p with report := p.report + 1,
             reportedBy := p.reportedBy ++ [email] }

/-- PATCH /product/upvote/:id (index.js lines 132-166).  When no product
matches, `product.likedUsers` dereferences `null`, the exception is
caught and the handler answers 500 with no store change.  Otherwise the
toggle update is applied; `modifiedCount === 0` (the updated document
equal to the original) answers 500, else the re-fetched product is
returned. -/
def upvote (st : Store) (id : Nat) (email : String) :
    Store × Outcome Product :=
  match findProduct st id with
  | none => (st, .error 500 "Failed to upvote product")
  | some product =>
      let updated := toggleLike email product
      let st' := { st with products := updateFirst st.products id (toggleLike email) }
      if updated = product then
        (st', .error 500 "Failed to update vote")
      else
        match findProduct st' id with
        | none => (st', .error 500 "Failed to upvote product")
        | some after => (st', .ok after)

/-- PATCH /product/report/:id (index.js lines 169-206), same shape as
`upvote` on the report fields. -/
def reportToggle (st : Store) (id : Nat) (email : String) :
    Store × Outcome Product :=
  match findProduct st id with
  | none => (st, .error 500 "Failed to report product")
  | some product =>
      let updated := toggleReport email product
      let st' := { st with products := updateFirst st.products id (toggleReport email) }
      if updated = product then
        (st', .error 500 "Failed to update report")
      else
        match findProduct st' id with
        | none => (st', .error 500 "Failed to report product")
        | some after => (st', .ok after)

/-- Outcome of POST /product/:id/reviews: `res.send('already reviewed')`
when the duplicate check fires, else the inserted document. -/
inductive ReviewOutcome where
  | alreadyReviewed
  | inserted (doc : ReviewRec)
deriving Repr, DecidableEq

/-- The request body of POST /product/:id/reviews. -/
structure ReviewPayload where
  email : String
  name : String
  photo : String
  rating : Int
  reviewDescription : String
deriving Repr, DecidableEq

/-- POST /product/:id/reviews (index.js lines 209-236).  The duplicate
check is `reviewsColl.findOne({ email: review.email })` (line 215): it
filters by author email ONLY, with no productId condition, despite the
comment above it reading "Check if user already reviewed this product". -/
def saveReview (st : Store) (id : Nat) (review : ReviewPayload) :
    Store × ReviewOutcome :=
  match st.reviews.find? (fun r => r.email == review.email) with
  | some _ => (st, .alreadyReviewed)
  | none =>
      let doc : ReviewRec :=
        { email := review.email
          name := review.name
          photo := review.photo
          rating := review.rating
          review := review.reviewDescription
          productId := id }
      ({ st with reviews := st.reviews ++ [doc] }, .inserted doc)

/-- Outcome of POST /user: `res.send('User already exists')` or the
insert result. -/
inductive UserOutcome where
  | alreadyExists
  | inserted (doc : UserRec)
deriving Repr, DecidableEq

/-- POST /user (index.js lines 239-254; identical in the earlier variant
unnamed/part_000 lines 104-119): `findOne({email})`, reject when a match
exists, else insert the body. -/
def saveUser (st : Store) (user : UserRec) : Store × UserOutcome :=
  match st.users.find? (fun u => u.email == user.email) with
  | some _ => (st, .alreadyExists)
  | none => ({ st with users := st.users ++ [user] }, .inserted user)

/-- A bearer token as seen by `jwt.verify`: the embedded email claim and
whether signature/expiry verification against the shared secret
succeeds. -/
structure Token where
  email : String
  valid : Bool
deriving Repr, DecidableEq

/-- Result of GET /my-product/:email behind `verifyToken`. -/
inductive MyProductResult where
  | forbidden (message : String)
  | unauthorized (message : String)
  | ok (products : List Product)
deriving Repr, DecidableEq

/-- The `verifyToken` middleware (index.js lines 14-28) followed by the
GET /my-product/:email handler (lines 333-350).  `authz = none` models a
request with no Authorization header → 401; an invalid token → 401; a
path email different from the token's decoded email → 401
'Unauthorize access'; otherwise the caller's products are returned. -/
def myProduct (st : Store) (authz : Option Token) (paramEmail : String) :
    MyProductResult :=
  match authz with
  | none => .forbidden "forbidden access"
  | some tok =>
      if tok.valid then
        if paramEmail ≠ tok.email then .unauthorized "Unauthorize access"
        else .ok (st.products.filter (fun p => p.addedBy == paramEmail))
      else .forbidden "forbidden access"

/-- The result object of a Mongo `updateOne`. -/
structure MongoUpdateResult where
  matchedCount : Nat
  modifiedCount : Nat
  upsertedCount : Nat
deriving Repr, DecidableEq

/-- Mongo `updateOne({_id: id}, {$set: {status}}, {upsert: true})` as used by
the moderation routes.  When a match exists the first matching document's
status is set; with no match the upsert inserts a document carrying only
`_id` and `status` (the remaining fields are modelled as defaults). -/
def setStatusUpsert (st : Store) (id : Nat) (newStatus : String) :
    Store × MongoUpdateResult :=
  match findProduct st id with
  | some p =>
      let ps := updateFirst st.products id (fun q => { q with status := newStatus })
      let st' := { st with products := ps }
      ( st'
      , { matchedCount := 1
          modifiedCount := if p.status = newStatus then 0 else 1
          upsertedCount := 0 } )
  | none =>
      let fresh : Product :=
        { pid := id, name := "", image := "", description := "", tags := []
          externalLink := "", vote := 0, likedUsers := [], addedBy := ""
          timestamp := 0, report := 0, reportedBy := []
          status := newStatus, type := "" }
      ( { st with products := st.products ++ [fresh] }
      , { matchedCount := 0, modifiedCount := 0, upsertedCount := 1 } )

/-- PATCH /accept-product/:id (index.js lines 403-419): unconditional
`$set {status: 'accepted'}` with upsert, result sent with HTTP 200. -/
def acceptProduct (st : Store) (id : Nat) : Store × MongoUpdateResult :=
  setStatusUpsert st id "accepted"

/-- PATCH /reject-product/:id (index.js lines 422-438): unconditional
`$set {status: 'rejected'}` with upsert, result sent with HTTP 200. -/
def rejectProduct (st : Store) (id : Nat) : Store × MongoUpdateResult :=
  setStatusUpsert st id "rejected"

/-- The destructured request body of POST /add-product; `none` models a
field absent from the JSON body (JS `undefined`). -/
structure AddProductBody where
  productName : Option String
  productImage : Option String
  productDescription : Option String
  userEmail : Option String
  externalLink : Option String
  tags : Option (List String)
deriving Repr, DecidableEq

/-- JS truthiness of a possibly-missing string: `!x` holds exactly when
`x` is `undefined` or the empty string. -/
def truthy : Option String → Bool
  | none => false
  | some s => s ≠ ""

/-- Outcome of POST /add-product: 400 'Missing required fields' or the
inserted record. -/
inductive AddOutcome where
  | missingFields
  | created (doc : Product)
deriving Repr, DecidableEq

/-- POST /add-product (index.js lines 288-330).  The four required
fields are validated by JS truthiness (`!productName || ...`); on
success a record with `vote = 0`, empty `likedUsers`, `report = 0`,
empty `reportedBy`, `status = 'pending'`, `type = 'regular'` is
inserted.  `newId` models the `_id` Mongo assigns and `now` the
`new Date()` timestamp. -/
def addProduct (st : Store) (body : AddProductBody) (newId now : Nat) :
    Store × AddOutcome :=
  if truthy body.productName && truthy body.productImage &&
     truthy body.productDescription && truthy body.userEmail then
    let newProduct : Product :=
      { pid := newId
        name := body.productName.getD ""
        image := body.productImage.getD ""
        description := body.productDescription.getD ""
        tags := body.tags.getD []
        externalLink := body.externalLink.getD ""
        vote := 0
        likedUsers := []
        addedBy := body.userEmail.getD ""
        timestamp := now
        report := 0
        reportedBy := []
        status := "pending"
        type := "regular" }
    ({ st with products := st.products ++ [newProduct] }, .created newProduct)
  else
    (st, .missingFields)

/-- Result of GET /reported. -/
inductive ReportedResult where
  | unauthorized (message : String)
  | ok (products : List Product)
deriving Repr, DecidableEq

/-- The body of GET /reported (index.js lines 460-477), parametrised by
the two values it compares: `req?.user?.email` (set only by the
`verifyToken` middleware) and `req.params.email` (set only by an
`:email` path segment).  JS `!==` on the two values corresponds to `≠`
on `Option String`, with `none` for `undefined`. -/
def reportedHandler (st : Store) (decodedEmail paramEmail : Option String) :
    ReportedResult :=
  if paramEmail ≠ decodedEmail then .unauthorized "Unauthorize access"
  else .ok (st.products.filter (fun p => p.report > 0))

/-- The GET /reported route as registered: the path `/reported` has no
`:email` segment, so `req.params.email` is `undefined`, and the route
has no `verifyToken` middleware, so `req.user` is `undefined` too. -/
def reportedRoute (st : Store) : ReportedResult :=
  reportedHandler st none none

/-- Descending insertion by vote, modelling
`productAll.sort((a, b) => b.vote - a.vote)` of the earlier variant. -/
def insertByVote (p : Product) : List Product → List Product
  | [] => [p]
  | q :: rest =>
      if p.vote ≥ q.vote then p :: q :: rest else q :: insertByVote p rest

/-- Sort the products by vote, most voted first. -/
def sortByVoteDesc : List Product → List Product
  | [] => []
  | p :: rest => insertByVote p (sortByVoteDesc rest)

/-- JS `array.length = n`: truncates when the array is longer, and
extends with empty slots — serialised as `null` in the JSON response —
when it is shorter.  The entries become `Option` values, `none` standing
for such a `null` slot. -/
def jsSetLength {α : Type} (l : List α) (n : Nat) : List (Option α) :=
  (l.map some ++ List.replicate n none).take n

/-- GET /trending of the earlier variant (unnamed/part_000 lines
50-61): fetch all products, sort by vote descending, assign
`productAll.length = 6`, send. -/
def trendingLegacy (st : Store) : List (Option Product) :=
  jsSetLength (sortByVoteDesc st.products) 6

/-! ### Generic lemmas about the embedded Mongo operations -/

theorem contains_eq_true (l : List String) (a : String) (h : a ∈ l) :
    l.contains a = true :=
  List.elem_iff.mpr h

theorem contains_eq_false (l : List String) (a : String) (h : a ∉ l) :
    l.contains a = false :=
  Bool.eq_false_iff.mpr (fun hc => h (List.elem_iff.mp hc))

theorem toggleLike_pid (email : String) (p : Product) :
    (toggleLike email p).pid = p.pid := by
  unfold toggleLike; split <;> rfl

theorem toggleReport_pid (email : String) (p : Product) :
    (toggleReport email p).pid = p.pid := by
  unfold toggleReport; split <;> rfl

theorem find?_updateFirst (ps : List Product) (id : Nat) (f : Product → Product)
    (hf : ∀ p, (f p).pid = p.pid) :
    (updateFirst ps id f).find? (fun p => p.pid == id) =
      (ps.find? (fun p => p.pid == id)).map f := by
  induction ps with
  | nil => rfl
  | cons p rest ih =>
      by_cases hp : p.pid = id
      · have hb : (p.pid == id) = true := by simp [hp]
        have hb' : ((f p).pid == id) = true := by simp [hf, hp]
        have hu : updateFirst (p :: rest) id f = f p :: rest := by
          simp [updateFirst, hb]
        have e1 : List.find? (fun q => q.pid == id) (f p :: rest) = some (f p) :=
          List.find?_cons_of_pos rest hb'
        have e2 : List.find? (fun q => q.pid == id) (p :: rest) = some p :=
          List.find?_cons_of_pos rest hb
        rw [hu, e1, e2]
        rfl
      · have hb : (p.pid == id) = false := by simp [hp]
        simp [updateFirst, hb, List.find?_cons_of_neg, ih]

theorem toggleLike_ne (email : String) (p : Product) :
    toggleLike email p ≠ p := by
  unfold toggleLike
  split <;> intro h <;>
    · have hv := congrArg Product.vote h
      simp at hv

theorem toggleReport_ne (email : String) (p : Product) :
    toggleReport email p ≠ p := by
  unfold toggleReport
  split <;> intro h <;>
    · have hv := congrArg Product.report h
      simp at hv

theorem upvote_fst_some (st : Store) (id : Nat) (email : String) (p : Product)
    (h : findProduct st id = some p) :
    (upvote st id email).1 =
      { st with products := updateFirst st.products id (toggleLike email) } := by
  unfold upvote
  rw [h]
  dsimp only
  split
  · rfl
  · split <;> rfl

theorem reportToggle_fst_some (st : Store) (id : Nat) (email : String)
    (p : Product) (h : findProduct st id = some p) :
    (reportToggle st id email).1 =
      { st with products := updateFirst st.products id (toggleReport email) } := by
  unfold reportToggle
  rw [h]
  dsimp only
  split
  · rfl
  · split <;> rfl

/-! ### C1: double vote-toggle restores vote count and membership -/

theorem toggleLike_twice (email : String) (p : Product) :
    (toggleLike email (toggleLike email p)).vote = p.vote ∧
    (email ∈ (toggleLike email (toggleLike email p)).likedUsers ↔
      email ∈ p.likedUsers) := by
  by_cases hm : email ∈ p.likedUsers
  · have hc := contains_eq_true _ _ hm
    have hnm : email ∉ p.likedUsers.filter (fun e => e ≠ email) := by simp
    have hc2 := contains_eq_false _ _ hnm
    simp only [toggleLike, hc, if_pos, hc2]
    simp [hm]
  · have hc := contains_eq_false _ _ hm
    have hm2 : email ∈ p.likedUsers ++ [email] := by simp
    have hc2 := contains_eq_true _ _ hm2
    simp only [toggleLike, hc, hc2]
    simp [hm]

/-- C1: for every product that exists in the store and every actor
email, invoking PATCH /product/upvote/:id twice in succession with the
same actor email returns the product to its original vote count and its
original likedUsers membership. -/
theorem upvote_twice_restores (st : Store) (id : Nat) (email : String)
    (p : Product) (h : findProduct st id = some p) :
    ∃ p2, findProduct (upvote (upvote st id email).1 id email).1 id = some p2 ∧
      p2.vote = p.vote ∧
      (email ∈ p2.likedUsers ↔ email ∈ p.likedUsers) := by
  have h1 := upvote_fst_some st id email p h
  have hfind1 : findProduct (upvote st id email).1 id =
      some (toggleLike email p) := by
    rw [h1]
    unfold findProduct at h ⊢
    dsimp only
    rw [find?_updateFirst _ _ _ (toggleLike_pid email), h]
    rfl
  have h2 := upvote_fst_some _ id email _ hfind1
  have hfind2 : findProduct (upvote (upvote st id email).1 id email).1 id =
      some (toggleLike email (toggleLike email p)) := by
    rw [h2]
    unfold findProduct at hfind1 ⊢
    dsimp only
    rw [find?_updateFirst _ _ _ (toggleLike_pid email), hfind1]
    rfl
  exact ⟨_, hfind2, (toggleLike_twice email p).1, (toggleLike_twice email p).2⟩

/-- The product of the spec's §8 scenario, as stored by POST
/add-product. -/
def scenarioProduct : Product :=
  { pid := 1, name := "X", image := "img", description := "d", tags := []
    externalLink := "", vote := 0, likedUsers := [], addedBy := "a@x.com"
    timestamp := 0, report := 0, reportedBy := [], status := "pending"
    type := "regular" }

/-- A one-product store for concrete evaluation. -/
def scenarioStore : Store :=
  { products := [scenarioProduct], users := [], reviews := [] }

/-- Witness for C1 at the spec's §8 scenario input. -/
theorem upvote_twice_restores_witness :
    ∃ p2, findProduct
        (upvote (upvote scenarioStore 1 "b@y.com").1 1 "b@y.com").1 1 =
        some p2 ∧
      p2.vote = scenarioProduct.vote ∧
      ("b@y.com" ∈ p2.likedUsers ↔ "b@y.com" ∈ scenarioProduct.likedUsers) :=
  upvote_twice_restores scenarioStore 1 "b@y.com" scenarioProduct (by rfl)

/-! ### C2: counters equal the sizes of their sets -/

/-- The count/set coupling the spec states for every product: the vote
counter equals the number of liked users, the report counter equals the
number of reporters, and both lists are duplicate-free (so their length
is the cardinality of the set they represent). -/
def ProductInv (p : Product) : Prop :=
  p.vote = (p.likedUsers.length : Int) ∧ p.likedUsers.Nodup ∧
  p.report = (p.reportedBy.length : Int) ∧ p.reportedBy.Nodup

theorem length_filter_ne_of_nodup (l : List String) (a : String) :
    l.Nodup → a ∈ l → (l.filter (fun e => e ≠ a)).length + 1 = l.length := by
  induction l with
  | nil => intro _ hmem; cases hmem
  | cons x rest ih =>
      intro hnd hmem
      rw [List.nodup_cons] at hnd
      by_cases hx : x = a
      · subst hx
        have hfa : (x :: rest).filter (fun e => e ≠ x) =
            rest.filter (fun e => e ≠ x) := by simp
        have hrest : rest.filter (fun e => e ≠ x) = rest :=
          List.filter_eq_self.mpr (fun b hb => by
            simp only [decide_eq_true_eq]
            exact fun hbx => hnd.1 (hbx ▸ hb))
        rw [hfa, hrest]
        simp
      · have ha : a ∈ rest := by
          rcases List.mem_cons.mp hmem with h | h
          · exact absurd h.symm hx
          · exact h
        have hfx : (x :: rest).filter (fun e => e ≠ a) =
            x :: rest.filter (fun e => e ≠ a) := by simp [hx]
        rw [hfx]
        have := ih hnd.2 ha
        simp only [List.length_cons]
        omega

theorem toggleLike_inv (email : String) (p : Product) (h : ProductInv p) :
    ProductInv (toggleLike email p) := by
  obtain ⟨hv, hnd, hr, hrnd⟩ := h
  unfold ProductInv toggleLike
  by_cases hm : email ∈ p.likedUsers
  · have hc := contains_eq_true _ _ hm
    have hlen := length_filter_ne_of_nodup p.likedUsers email hnd hm
    simp only [hc]
    refine ⟨by dsimp; simp only [ne_eq] at hlen ⊢; omega, ?_, hr, hrnd⟩
    exact hnd.filter _
  · have hc := contains_eq_false _ _ hm
    simp only [hc, Bool.false_eq_true, if_false]
    refine ⟨by simp; omega, ?_, hr, hrnd⟩
    rw [List.nodup_append]
    refine ⟨hnd, List.nodup_singleton email, ?_⟩
    intro b hb hb'
    simp only [List.mem_singleton] at hb'
    subst hb'
    exact hm hb

theorem toggleReport_inv (email : String) (p : Product) (h : ProductInv p) :
    ProductInv (toggleReport email p) := by
  obtain ⟨hv, hnd, hr, hrnd⟩ := h
  unfold ProductInv toggleReport
  by_cases hm : email ∈ p.reportedBy
  · have hc := contains_eq_true _ _ hm
    have hlen := length_filter_ne_of_nodup p.reportedBy email hrnd hm
    simp only [hc]
    refine ⟨hv, hnd, by dsimp; simp only [ne_eq] at hlen ⊢; omega, ?_⟩
    exact hrnd.filter _
  · have hc := contains_eq_false _ _ hm
    simp only [hc, Bool.false_eq_true, if_false]
    refine ⟨hv, hnd, by simp; omega, ?_⟩
    rw [List.nodup_append]
    refine ⟨hrnd, List.nodup_singleton email, ?_⟩
    intro b hb hb'
    simp only [List.mem_singleton] at hb'
    subst hb'
    exact hm hb

theorem updateFirst_forall {P : Product → Prop} (ps : List Product) (id : Nat)
    (f : Product → Product) (hf : ∀ p, P p → P (f p)) :
    (∀ p ∈ ps, P p) → ∀ p ∈ updateFirst ps id f, P p := by
  induction ps with
  | nil => intro _ p hp; cases hp
  | cons q rest ih =>
      intro h p hp
      unfold updateFirst at hp
      by_cases hq : (q.pid == id) = true
      · rw [if_pos hq] at hp
        rcases List.mem_cons.mp hp with h1 | h1
        · exact h1 ▸ hf q (h q (List.mem_cons_self q rest))
        · exact h p (List.mem_cons_of_mem q h1)
      · rw [if_neg hq] at hp
        rcases List.mem_cons.mp hp with h1 | h1
        · exact h1 ▸ h q (List.mem_cons_self q rest)
        · exact ih (fun r hr => h r (List.mem_cons_of_mem q hr)) p h1

/-- One PATCH call of the toggle family, as a labelled operation. -/
inductive ToggleOp where
  | vote (id : Nat) (email : String)
  | report (id : Nat) (email : String)
deriving Repr, DecidableEq

/-- The store after one toggle route call (response discarded). -/
def applyOp (st : Store) : ToggleOp → Store
  | .vote id email => (upvote st id email).1
  | .report id email => (reportToggle st id email).1

/-- The store after a finite sequence of sequential toggle calls. -/
def applyOps (st : Store) (ops : List ToggleOp) : Store :=
  ops.foldl applyOp st

theorem applyOp_products_inv (st : Store) (op : ToggleOp)
    (h : ∀ p ∈ st.products, ProductInv p) :
    ∀ p ∈ (applyOp st op).products, ProductInv p := by
  cases op with
  | vote id email =>
      cases hfind : findProduct st id with
      | none =>
          have hst : (upvote st id email).1 = st := by
            unfold upvote; rw [hfind]
          show ∀ p ∈ (upvote st id email).1.products, ProductInv p
          rw [hst]; exact h
      | some p =>
          have hfst := upvote_fst_some st id email p hfind
          show ∀ p ∈ (upvote st id email).1.products, ProductInv p
          rw [hfst]
          exact updateFirst_forall _ _ _ (fun q hq => toggleLike_inv email q hq) h
  | report id email =>
      cases hfind : findProduct st id with
      | none =>
          have hst : (reportToggle st id email).1 = st := by
            unfold reportToggle; rw [hfind]
          show ∀ p ∈ (reportToggle st id email).1.products, ProductInv p
          rw [hst]; exact h
      | some p =>
          have hfst := reportToggle_fst_some st id email p hfind
          show ∀ p ∈ (reportToggle st id email).1.products, ProductInv p
          rw [hfst]
          exact updateFirst_forall _ _ _ (fun q hq => toggleReport_inv email q hq) h

theorem applyOps_products_inv (ops : List ToggleOp) (st : Store)
    (h : ∀ p ∈ st.products, ProductInv p) :
    ∀ p ∈ (applyOps st ops).products, ProductInv p := by
  induction ops generalizing st with
  | nil => exact h
  | cons op rest ih => exact ih _ (applyOp_products_inv st op h)

theorem addProduct_products_inv (st : Store) (body : AddProductBody)
    (newId now : Nat) (h : ∀ p ∈ st.products, ProductInv p) :
    ∀ p ∈ (addProduct st body newId now).1.products, ProductInv p := by
  unfold addProduct
  split
  · intro p hp
    dsimp only at hp
    rcases List.mem_append.mp hp with h1 | h1
    · exact h p h1
    · rcases List.mem_singleton.mp h1 with rfl
      exact ⟨by simp, List.nodup_nil, by simp, List.nodup_nil⟩
  · exact h

/-- C2: for every product created via POST /add-product (vote = 0,
empty likedUsers, report = 0, empty reportedBy), after any finite
sequence of sequential vote-toggle and report-toggle calls the vote
count of every product — the created one included — equals the number
of elements of its likedUsers set and the report count the number of
elements of its reportedBy set, provided the pre-existing products
already satisfied that coupling. -/
theorem vote_report_counts_match (st : Store) (body : AddProductBody)
    (newId now : Nat) (ops : List ToggleOp)
    (h : ∀ p ∈ st.products, ProductInv p) :
    ∀ p ∈ (applyOps (addProduct st body newId now).1 ops).products,
      p.vote = (p.likedUsers.length : Int) ∧
      p.report = (p.reportedBy.length : Int) := by
  intro p hp
  have hinv := applyOps_products_inv ops _
    (addProduct_products_inv st body newId now h) p hp
  exact ⟨hinv.1, hinv.2.2.1⟩

/-- The empty database. -/
def emptyStore : Store := { products := [], users := [], reviews := [] }

/-- The §8 scenario body for POST /add-product, all four required
fields supplied. -/
def scenarioBody : AddProductBody :=
  { productName := some "X", productImage := some "img"
    productDescription := some "d", userEmail := some "a@x.com"
    externalLink := none, tags := none }

/-- The product stored for the product created in the C2 witness run
after one vote toggle by b@y.com and one report toggle by c@z.com. -/
def c2FinalProduct : Product :=
  { pid := 7, name := "X", image := "img", description := "d", tags := []
    externalLink := "", vote := 1, likedUsers := ["b@y.com"]
    addedBy := "a@x.com", timestamp := 0, report := 1
    reportedBy := ["c@z.com"], status := "pending", type := "regular" }

/-- Witness for C2: a concrete run — create a product, toggle a vote
and a report — whose final counters match the set sizes. -/
theorem vote_report_counts_match_witness :
    c2FinalProduct.vote = (c2FinalProduct.likedUsers.length : Int) ∧
    c2FinalProduct.report = (c2FinalProduct.reportedBy.length : Int) :=
  vote_report_counts_match emptyStore scenarioBody 7 0
    [ToggleOp.vote 7 "b@y.com", ToggleOp.report 7 "c@z.com"]
    (by intro p hp; simp [emptyStore] at hp)
    c2FinalProduct (by decide)

/-! ### C3: the duplicate-review check ignores the product -/

/-- A review by the author a@x.com already stored for product 1. -/
def c3ExistingReview : ReviewRec :=
  { email := "a@x.com", name := "A", photo := "p", rating := 5
    review := "good", productId := 1 }

/-- A store whose only review is `c3ExistingReview`. -/
def c3Store : Store :=
  { products := [], users := [], reviews := [c3ExistingReview] }

/-- The same author submitting a review for a different product (id 2). -/
def c3Payload : ReviewPayload :=
  { email := "a@x.com", name := "A", photo := "p", rating := 4
    reviewDescription := "another" }

/-- C3 evaluated at the failing input: the author has reviewed only
product 1 (no stored review has productId 2), yet the submission for
product 2 is rejected as a duplicate and nothing is inserted — the
duplicate check `findOne({email})` matches on author email alone, so
one review anywhere blocks the author on every other product, contrary
to the claim and to the code's own comment "Check if user already
reviewed this product". -/
theorem saveReview_blocks_other_product :
    saveReview c3Store 2 c3Payload = (c3Store, ReviewOutcome.alreadyReviewed) ∧
    c3Store.reviews.all (fun r => r.productId != 2) = true :=
  ⟨rfl, rfl⟩

/-! ### C4: user creation is unique per email -/

/-- C4: starting from a store with no user under the email, two POST
/user calls with the same email leave the second call reporting the
duplicate, the users collection unchanged by the second call, and
exactly one stored record under that email. -/
theorem user_creation_unique (st : Store) (u1 u2 : UserRec)
    (hemail : u2.email = u1.email)
    (hfresh : st.users.find? (fun v => v.email == u1.email) = none) :
    (saveUser (saveUser st u1).1 u2).2 = UserOutcome.alreadyExists ∧
    (saveUser (saveUser st u1).1 u2).1 = (saveUser st u1).1 ∧
    ((saveUser (saveUser st u1).1 u2).1.users.filter
        (fun v => v.email == u1.email)).length = 1 := by
  have h1 : saveUser st u1 = ({ st with users := st.users ++ [u1] },
      UserOutcome.inserted u1) := by
    unfold saveUser
    rw [hfresh]
  have hfind2 : (st.users ++ [u1]).find? (fun v => v.email == u1.email) =
      some u1 := by
    rw [List.find?_append, hfresh]
    simp
  have h2 : saveUser ({ st with users := st.users ++ [u1] } : Store) u2 =
      ({ st with users := st.users ++ [u1] }, UserOutcome.alreadyExists) := by
    unfold saveUser
    dsimp only
    simp only [hemail]
    rw [hfind2]
  have hfilter : (st.users ++ [u1]).filter (fun v => v.email == u1.email) =
      [u1] := by
    rw [List.filter_append]
    have hnil : st.users.filter (fun v => v.email == u1.email) = [] :=
      List.filter_eq_nil_iff.mpr (List.find?_eq_none.mp hfresh)
    rw [hnil]
    simp
  rw [h1]
  dsimp only
  rw [h2]
  exact ⟨rfl, rfl, by dsimp only; rw [hfilter]; rfl⟩

/-- A concrete user record for the C4 witness. -/
def c4User : UserRec :=
  { email := "a@x.com", name := "A", role := "user", status := "unverified" }

/-- Witness for C4: two creations of the same user on an empty store. -/
theorem user_creation_unique_witness :
    (saveUser (saveUser emptyStore c4User).1 c4User).2 =
      UserOutcome.alreadyExists ∧
    (saveUser (saveUser emptyStore c4User).1 c4User).1 =
      (saveUser emptyStore c4User).1 ∧
    ((saveUser (saveUser emptyStore c4User).1 c4User).1.users.filter
        (fun v => v.email == c4User.email)).length = 1 :=
  user_creation_unique emptyStore c4User c4User rfl (by rfl)

/-! ### C5: the bearer gate on GET /my-product/:email -/

/-- C5: a request without an Authorization header is answered 401 by
`verifyToken`, and a request with a valid token whose decoded email
differs from the `:email` path parameter is answered 401 'Unauthorize
access'; in both cases the result is a 401 constructor carrying no
product data. -/
theorem my_product_auth_gate (st : Store) (tok : Token) (paramEmail : String)
    (hvalid : tok.valid = true) (hneq : paramEmail ≠ tok.email) :
    myProduct st none paramEmail = MyProductResult.forbidden "forbidden access" ∧
    myProduct st (some tok) paramEmail =
      MyProductResult.unauthorized "Unauthorize access" := by
  refine ⟨rfl, ?_⟩
  simp [myProduct, hvalid, hneq]

/-- Witness for C5 with a concrete token and mismatched path email. -/
theorem my_product_auth_gate_witness :
    myProduct scenarioStore none "b@y.com" =
      MyProductResult.forbidden "forbidden access" ∧
    myProduct scenarioStore (some { email := "a@x.com", valid := true })
        "b@y.com" =
      MyProductResult.unauthorized "Unauthorize access" :=
  my_product_auth_gate scenarioStore { email := "a@x.com", valid := true }
    "b@y.com" rfl (by decide)

/-! ### C6: toggles on a missing product -/

/-- C6: when no product matches the identifier, both toggle routes
fail — `findOne` yields null, the null dereference is caught and
answered as an error — and the store is unchanged. -/
theorem toggle_missing_product (st : Store) (id : Nat) (email : String)
    (h : findProduct st id = none) :
    upvote st id email = (st, Outcome.error 500 "Failed to upvote product") ∧
    reportToggle st id email =
      (st, Outcome.error 500 "Failed to report product") := by
  constructor
  · unfold upvote; rw [h]
  · unfold reportToggle; rw [h]

/-- Witness for C6: toggling product 99 in the one-product store. -/
theorem toggle_missing_product_witness :
    upvote scenarioStore 99 "b@y.com" =
      (scenarioStore, Outcome.error 500 "Failed to upvote product") ∧
    reportToggle scenarioStore 99 "b@y.com" =
      (scenarioStore, Outcome.error 500 "Failed to report product") :=
  toggle_missing_product scenarioStore 99 "b@y.com" (by rfl)

/-! ### C7: moderation transitions are unconditional -/

theorem setStatus_fst_some (st : Store) (id : Nat) (s : String) (p : Product)
    (h : findProduct st id = some p) :
    (setStatusUpsert st id s).1 =
      { st with products :=
          updateFirst st.products id (fun q => { q with status := s }) } ∧
    (setStatusUpsert st id s).2.matchedCount = 1 := by
  unfold setStatusUpsert
  rw [h]
  exact ⟨rfl, rfl⟩

theorem findProduct_setStatus (st : Store) (id : Nat) (s : String) (p : Product)
    (h : findProduct st id = some p) :
    findProduct (setStatusUpsert st id s).1 id = some { p with status := s } := by
  rw [(setStatus_fst_some st id s p h).1]
  unfold findProduct at h ⊢
  dsimp only
  rw [find?_updateFirst st.products id
    (fun q => { q with status := s }) (fun q => rfl), h]
  rfl

/-- C7: on an existing product, accept then reject then accept each
match and update the document unconditionally — there is no guard on
the prior status — and afterwards the stored status is 'accepted'. -/
theorem moderation_accept_reject_accept (st : Store) (id : Nat) (p : Product)
    (h : findProduct st id = some p) :
    (acceptProduct st id).2.matchedCount = 1 ∧
    (rejectProduct (acceptProduct st id).1 id).2.matchedCount = 1 ∧
    (acceptProduct
      (rejectProduct (acceptProduct st id).1 id).1 id).2.matchedCount = 1 ∧
    ∃ q, findProduct
        (acceptProduct (rejectProduct (acceptProduct st id).1 id).1 id).1 id =
        some q ∧ q.status = "accepted" := by
  have f1 := findProduct_setStatus st id "accepted" p h
  have m1 := (setStatus_fst_some st id "accepted" p h).2
  have f2 := findProduct_setStatus _ id "rejected" _ f1
  have m2 := (setStatus_fst_some _ id "rejected" _ f1).2
  have f3 := findProduct_setStatus _ id "accepted" _ f2
  have m3 := (setStatus_fst_some _ id "accepted" _ f2).2
  exact ⟨m1, m2, m3, _, f3, rfl⟩

/-- Witness for C7 on the one-product store. -/
theorem moderation_accept_reject_accept_witness :
    (acceptProduct scenarioStore 1).2.matchedCount = 1 ∧
    (rejectProduct (acceptProduct scenarioStore 1).1 1).2.matchedCount = 1 ∧
    (acceptProduct
      (rejectProduct (acceptProduct scenarioStore 1).1 1).1 1).2.matchedCount = 1 ∧
    ∃ q, findProduct
        (acceptProduct
          (rejectProduct (acceptProduct scenarioStore 1).1 1).1 1).1 1 =
        some q ∧ q.status = "accepted" :=
  moderation_accept_reject_accept scenarioStore 1 scenarioProduct (by rfl)

/-! ### C8: the POST /add-product contract -/

/-- C8: when the four required fields all pass the handler's truthiness
check, the stored record carries vote = 0, report = 0, empty likedUsers
and reportedBy, status 'pending' and type 'regular', appended to the
collection; when any of the four is absent from the body, the handler
answers 400 and the store is unchanged. -/
theorem addProduct_contract (st : Store) (body : AddProductBody)
    (newId now : Nat) :
    ((truthy body.productName = true ∧ truthy body.productImage = true ∧
      truthy body.productDescription = true ∧ truthy body.userEmail = true) →
      ∃ doc, (addProduct st body newId now).2 = AddOutcome.created doc ∧
        doc.vote = 0 ∧ doc.report = 0 ∧ doc.likedUsers = [] ∧
        doc.reportedBy = [] ∧ doc.status = "pending" ∧ doc.type = "regular" ∧
        (addProduct st body newId now).1.products = st.products ++ [doc]) ∧
    ((body.productName = none ∨ body.productImage = none ∨
      body.productDescription = none ∨ body.userEmail = none) →
      (addProduct st body newId now).2 = AddOutcome.missingFields ∧
      (addProduct st body newId now).1 = st) := by
  constructor
  · rintro ⟨h1, h2, h3, h4⟩
    unfold addProduct
    simp only [h1, h2, h3, h4, Bool.and_self, Bool.and_true, if_true]
    exact ⟨_, rfl, rfl, rfl, rfl, rfl, rfl, rfl, rfl⟩
  · intro hmiss
    have hfalse : (truthy body.productName && truthy body.productImage &&
        truthy body.productDescription && truthy body.userEmail) = false := by
      rcases hmiss with h | h | h | h <;> simp [h, truthy]
    have heq : addProduct st body newId now = (st, AddOutcome.missingFields) := by
      unfold addProduct
      rw [hfalse]
      rfl
    exact ⟨by rw [heq], by rw [heq]⟩

/-- A body with the productName field absent. -/
def c8MissingBody : AddProductBody :=
  { productName := none, productImage := some "img"
    productDescription := some "d", userEmail := some "a@x.com"
    externalLink := none, tags := none }

/-- Witness for C8: the §8 scenario body succeeds with the default
fields, and a body lacking productName is rejected unchanged. -/
theorem addProduct_contract_witness :
    (∃ doc, (addProduct emptyStore scenarioBody 1 0).2 =
        AddOutcome.created doc ∧
      doc.vote = 0 ∧ doc.report = 0 ∧ doc.likedUsers = [] ∧
      doc.reportedBy = [] ∧ doc.status = "pending" ∧ doc.type = "regular" ∧
      (addProduct emptyStore scenarioBody 1 0).1.products =
        emptyStore.products ++ [doc]) ∧
    ((addProduct emptyStore c8MissingBody 1 0).2 = AddOutcome.missingFields ∧
      (addProduct emptyStore c8MissingBody 1 0).1 = emptyStore) :=
  ⟨(addProduct_contract emptyStore scenarioBody 1 0).1
      ⟨by decide, by decide, by decide, by decide⟩,
    (addProduct_contract emptyStore c8MissingBody 1 0).2 (Or.inl rfl)⟩

/-! ### C9: the 401 branch of GET /reported is unreachable -/

/-- C9: the route `/reported` carries no `:email` path segment and no
token middleware, so both compared emails are `undefined` and the JS
`!==` test fails; the handler always returns the products with a
positive report count and never reaches the 401 branch. -/
theorem reported_route_never_401 (st : Store) :
    reportedRoute st =
      ReportedResult.ok (st.products.filter (fun p => p.report > 0)) := by
  unfold reportedRoute reportedHandler
  simp

/-! ### C10: the earlier /trending pads to exactly six entries -/

theorem insertByVote_length (p : Product) (l : List Product) :
    (insertByVote p l).length = l.length + 1 := by
  induction l with
  | nil => rfl
  | cons q rest ih =>
      unfold insertByVote
      split
      · rfl
      · simp only [List.length_cons, ih]

theorem sortByVoteDesc_length (l : List Product) :
    (sortByVoteDesc l).length = l.length := by
  induction l with
  | nil => rfl
  | cons p rest ih =>
      unfold sortByVoteDesc
      rw [insertByVote_length, ih]
      rfl

/-- C10: the earlier GET /trending always answers an array of exactly
six entries; with fewer than six stored products, `length = 6`
extends the sorted array with empty slots, so the positions past the
existing products are `null` padding, not a truncation. -/
theorem trendingLegacy_pads_to_six (st : Store) :
    (trendingLegacy st).length = 6 ∧
    (st.products.length < 6 →
      (trendingLegacy st).drop st.products.length =
        List.replicate (6 - st.products.length) (none : Option Product)) := by
  have hlen : ((sortByVoteDesc st.products).map some).length =
      st.products.length := by
    rw [List.length_map, sortByVoteDesc_length]
  constructor
  · unfold trendingLegacy jsSetLength
    rw [List.length_take, List.length_append, hlen, List.length_replicate]
    omega
  · intro hlt
    unfold trendingLegacy jsSetLength
    rw [List.take_append_eq_append_take,
      List.take_of_length_le (by omega : ((sortByVoteDesc st.products).map some).length ≤ 6),
      hlen, List.take_replicate]
    have hmin : (6 - st.products.length) ⊓ 6 = 6 - st.products.length := by omega
    rw [hmin, List.drop_left' hlen]

/-- A two-product store: the legacy trending response pads it with four
null slots. -/
def c10Store : Store :=
  { products := [scenarioProduct, { scenarioProduct with pid := 2, vote := 5 }]
    users := [], reviews := [] }

/-- Witness for C10 on the two-product store. -/
theorem trendingLegacy_pads_to_six_witness :
    (trendingLegacy c10Store).length = 6 ∧
    (trendingLegacy c10Store).drop c10Store.products.length =
      List.replicate (6 - c10Store.products.length) (none : Option Product) :=
  ⟨(trendingLegacy_pads_to_six c10Store).1,
    (trendingLegacy_pads_to_six c10Store).2 (by decide)⟩

end ProdVent
